import Mathlib

/-!
# Verification of the temperature-alert engine

Shallow embedding of `src/temperature_alert/lib/temperature_alert.py`
(class `TemperatureAlert`): the classification routine `_check_alert`,
one iteration of the `_monitor_loop` body (`pollOnce`), and the
construction-time sensor/notifier dispatch.

Temperatures, timestamps and configuration values are modelled as
rationals; Python `Optional[float]` becomes `Option ℚ`.  Calls to the
notification sink are recorded as values of type `SinkCall` in the
order the code issues them.
-/

namespace TemperatureAlert

/-- Embedding of `AlertConfig` (the fields the engine core reads). -/
structure AlertConfig where
  threshold : ℚ
  hysteresis : ℚ
  check_interval : ℚ
  rate_of_change_threshold : ℚ
deriving DecidableEq, Repr

/-- The message argument of a `notifier.send` call, abstracted to its
template: the rate-exceeded message carries the computed rate, the
threshold-exceeded message carries the configured threshold. -/
inductive SinkMessage where
  | rateExceeded (rate : ℚ)
  | thresholdExceeded (threshold : ℚ)
deriving DecidableEq, Repr

/-- One invocation of the Notification Sink:
`notifier.send(message, temperature, alert)`. -/
structure SinkCall where
  message : SinkMessage
  temperature : ℚ
  alert : Bool
deriving DecidableEq, Repr

/-- The mutable classification state of `TemperatureAlert`:
`_alert_active`, `_last_temp`, `_last_check_time`, `_current_temp`,
`_history`. -/
structure State where
  alert_active : Bool
  last_temp : Option ℚ
  last_check_time : Option ℚ
  current_temp : Option ℚ
  history : List ℚ
deriving DecidableEq, Repr

/-- The state at engine construction: all fields absent/false/empty. -/
def initState : State :=
  { alert_active := false
    last_temp := none
    last_check_time := none
    current_temp := none
    history := [] }

/-- Python truthiness of an `Optional[float]`: `None` is falsy and so is
`0.0`; every other float is truthy.  `_check_alert` guards the rate
check with `if self._last_temp and self._last_check_time:`, which tests
truthiness, not presence. -/
def truthy : Option ℚ → Bool
  | none => false
  | some x => decide (x ≠ 0)

/-- Embedding of `TemperatureAlert._check_alert(self, temperature)`.

`now` stands for the value of `time.time()` during the call.  The
result is the returned boolean, the updated state, and the list of
`notifier.send` calls the method itself performs (the rate-of-change
notification is sent from inside `_check_alert`). -/
def check_alert (cfg : AlertConfig) (now : ℚ) (s : State) (temperature : ℚ) :
    Bool × State × List SinkCall :=
  let threshold := cfg.threshold
  -- Rate of change check
  let calls : List SinkCall :=
    if truthy s.last_temp && truthy s.last_check_time then
      let time_diff := now - s.last_check_time.getD 0
      if time_diff > 0 then
        let rate_of_change := |temperature - s.last_temp.getD 0| / (time_diff / 60)
        if rate_of_change > cfg.rate_of_change_threshold then
          [{ message := SinkMessage.rateExceeded rate_of_change
             temperature := temperature
             alert := true }]
        else []
      else []
    else []
  -- Threshold check with hysteresis
  if temperature ≥ threshold ∧ s.alert_active = false then
    (true, { s with alert_active := true }, calls)
  else if temperature < threshold - cfg.hysteresis ∧ s.alert_active = true then
    (false, { s with alert_active := false }, calls)
  else
    (s.alert_active, s, calls)

/-- Embedding of one iteration of the `while` body of
`TemperatureAlert._monitor_loop` (a poll cycle), without the trailing
`time.sleep`.  `reading` is the value returned by
`self.sensor.read_temperature()` and `now` the value of `time.time()`
during the cycle.  Returns the updated state and the `notifier.send`
calls made during the cycle, in order. -/
def pollOnce (cfg : AlertConfig) (s : State) (reading : Option ℚ) (now : ℚ) :
    State × List SinkCall :=
  match reading with
  | some temperature =>
      let s := { s with current_temp := some temperature }
      let h := s.history ++ [temperature]
      let h := if h.length > 100 then h.drop 1 else h
      let s := { s with history := h }
      let r := check_alert cfg now s temperature
      let alert := r.1
      let calls := r.2.2 ++
        (if alert then
          [{ message := SinkMessage.thresholdExceeded cfg.threshold
             temperature := temperature
             alert := true }]
        else [])
      ({ r.2.1 with last_temp := some temperature, last_check_time := some now }, calls)
  | none =>
      ({ s with last_temp := none, last_check_time := some now }, [])

/-- A sequence of successful poll cycles: each pair is (reading, time). -/
def pollSeq (cfg : AlertConfig) (s : State) : List (ℚ × ℚ) → State
  | [] => s
  | (t, now) :: rest => pollSeq cfg (pollOnce cfg s (some t) now).1 rest

/-- Whether a sink call is a rate-of-change notification. -/
def is_rate_call (c : SinkCall) : Bool :=
  match c.message with
  | SinkMessage.rateExceeded _ => true
  | SinkMessage.thresholdExceeded _ => false

/-- The sensor variants `_create_sensor` can construct. -/
inductive SensorKind where
  | file
  | http
  | mqtt
  | gpio
deriving DecidableEq, Repr

/-- The notifier variants `_create_notifier` can construct. -/
inductive NotifierKind where
  | telegram
  | discord
  | webhook
deriving DecidableEq, Repr

/-- Embedding of the type dispatch of `TemperatureAlert._create_sensor`:
a `ValueError` is raised exactly on an unknown `sensor_type`. -/
def create_sensor (sensor_type : String) : Except String SensorKind :=
  if sensor_type = "file" then Except.ok SensorKind.file
  else if sensor_type = "http" then Except.ok SensorKind.http
  else if sensor_type = "mqtt" then Except.ok SensorKind.mqtt
  else if sensor_type = "gpio" then Except.ok SensorKind.gpio
  else Except.error ("Unknown sensor type: " ++ sensor_type)

/-- Embedding of the type dispatch of `TemperatureAlert._create_notifier`:
a `ValueError` is raised exactly on an unknown `notification_type`. -/
def create_notifier (notification_type : String) : Except String NotifierKind :=
  if notification_type = "telegram" then Except.ok NotifierKind.telegram
  else if notification_type = "discord" then Except.ok NotifierKind.discord
  else if notification_type = "webhook" then Except.ok NotifierKind.webhook
  else Except.error ("Unknown notification type: " ++ notification_type)

/-- Embedding of `TemperatureAlert.__init__`'s collaborator construction:
the sensor is created first, then the notifier; either unknown type makes
construction fail before any monitoring state exists. -/
def mkTemperatureAlert (sensor_type notification_type : String) :
    Except String (SensorKind × NotifierKind) := do
  let sensor ← create_sensor sensor_type
  let notifier ← create_notifier notification_type
  Except.ok (sensor, notifier)

/-- The history update performed by a successful poll cycle:
`append` followed by `pop(0)` when the length exceeds 100. -/
def histStep (h : List ℚ) (t : ℚ) : List ℚ :=
  if (h ++ [t]).length > 100 then (h ++ [t]).drop 1 else h ++ [t]

/-- A concrete run of 101 successful poll cycles: reading `i` at time `i`. -/
def inputs101 : List (ℚ × ℚ) :=
  (List.range 101).map (fun (i : ℕ) => ((i : ℚ), (i : ℚ)))

/- ------------------------------------------------------------------
Helper lemmas (shared)
------------------------------------------------------------------ -/

/-- The sink calls issued by `_check_alert` itself are exactly the
rate-of-change notification, produced under the code's guards
(truthiness of `_last_temp` and `_last_check_time`, positive elapsed
time, rate above the configured threshold). -/
theorem check_alert_calls (cfg : AlertConfig) (now : ℚ) (s : State) (t : ℚ) :
    (check_alert cfg now s t).2.2 =
      (if truthy s.last_temp && truthy s.last_check_time then
        if now - s.last_check_time.getD 0 > 0 then
          if |t - s.last_temp.getD 0| / ((now - s.last_check_time.getD 0) / 60) >
              cfg.rate_of_change_threshold then
            [{ message := SinkMessage.rateExceeded
                 (|t - s.last_temp.getD 0| / ((now - s.last_check_time.getD 0) / 60))
               temperature := t
               alert := true }]
          else []
        else []
      else []) := by
  simp only [check_alert]
  split_ifs <;> rfl

/-- The boolean `_check_alert` returns equals the updated `_alert_active`. -/
theorem check_alert_fst (cfg : AlertConfig) (now : ℚ) (s : State) (t : ℚ) :
    (check_alert cfg now s t).1 = (check_alert cfg now s t).2.1.alert_active := by
  simp only [check_alert]
  split_ifs <;> rfl

/-- `_check_alert` leaves every state field other than `_alert_active`
unchanged. -/
theorem check_alert_frame (cfg : AlertConfig) (now : ℚ) (s : State) (t : ℚ) :
    (check_alert cfg now s t).2.1.last_temp = s.last_temp ∧
    (check_alert cfg now s t).2.1.last_check_time = s.last_check_time ∧
    (check_alert cfg now s t).2.1.current_temp = s.current_temp ∧
    (check_alert cfg now s t).2.1.history = s.history := by
  simp only [check_alert]
  split_ifs <;> exact ⟨rfl, rfl, rfl, rfl⟩

/-- A call that is not a rate call is never among `_check_alert`'s own
sink calls. -/
theorem check_alert_no_threshold_call (cfg : AlertConfig) (now : ℚ) (s : State)
    (t : ℚ) (c : SinkCall) (hc : is_rate_call c = false) :
    c ∉ (check_alert cfg now s t).2.2 := by
  rw [check_alert_calls]
  split_ifs <;> intro hmem <;> simp_all [is_rate_call]

/-- Filtering `_check_alert`'s own sink calls down to non-rate calls
leaves nothing. -/
theorem check_alert_filter_threshold (cfg : AlertConfig) (now : ℚ) (s : State)
    (t : ℚ) :
    (check_alert cfg now s t).2.2.filter (fun c => ! is_rate_call c) = [] := by
  rw [check_alert_calls]
  split_ifs <;> simp [is_rate_call]

/-- Membership of a fixed call in a list followed by a conditional
singleton of that call, when the call is not in the prefix. -/
theorem mem_append_ite (c : SinkCall) (l : List SinkCall) (b : Bool)
    (hl : c ∉ l) : (c ∈ l ++ (if b then [c] else [])) ↔ b = true := by
  cases b <;> simp [hl]

/-- The history written by a successful poll cycle is `histStep` of the
previous history. -/
theorem pollOnce_some_history (cfg : AlertConfig) (s : State) (t now : ℚ) :
    (pollOnce cfg s (some t) now).1.history = histStep s.history t := by
  simp only [pollOnce]
  exact (check_alert_frame cfg now _ t).2.2.2

/-- The history after a sequence of successful poll cycles is a left
fold of `histStep` over the readings. -/
theorem pollSeq_history (cfg : AlertConfig) (s : State) (l : List (ℚ × ℚ)) :
    (pollSeq cfg s l).history = List.foldl histStep s.history (l.map Prod.fst) := by
  induction l generalizing s with
  | nil => rfl
  | cons p l ih =>
      cases p with
      | mk t now =>
          rw [pollSeq, List.map_cons, List.foldl_cons, ← pollOnce_some_history cfg s t now]
          exact ih _

/-- `histStep` preserves the capacity bound of 100. -/
theorem histStep_length_le (h : List ℚ) (t : ℚ) (hh : h.length ≤ 100) :
    (histStep h t).length ≤ 100 := by
  unfold histStep
  split <;> simp_all <;> omega

/-- Folding `histStep` keeps the last 100 elements of the concatenation
of the start history and the appended readings. -/
theorem histFold_eq_drop (ts : List ℚ) (h : List ℚ) (hh : h.length ≤ 100) :
    List.foldl histStep h ts = (h ++ ts).drop ((h ++ ts).length - 100) := by
  induction ts generalizing h with
  | nil => simp [Nat.sub_eq_zero_of_le hh]
  | cons t ts ih =>
      rw [List.foldl_cons, ih (histStep h t) (histStep_length_le h t hh)]
      unfold histStep
      split
      · rename_i hgt
        have h100 : h.length = 100 := by
          simp only [List.length_append, List.length_singleton] at hgt
          omega
        have h1le : 1 ≤ h.length := by omega
        have hdrop : (h ++ [t]).drop 1 ++ ts = (h ++ t :: ts).drop 1 := by
          rw [List.drop_append_of_le_length h1le, List.drop_append_of_le_length h1le]
          simp
        rw [hdrop, List.drop_drop]
        congr 1
        simp only [List.length_drop, List.length_append, List.length_singleton,
          List.length_cons]
        omega
      · rename_i hle
        have : (h ++ [t]) ++ ts = h ++ t :: ts := by simp
        rw [this]

/- ------------------------------------------------------------------
Theorems settling the claims
------------------------------------------------------------------ -/

/-- C1: the hysteresis update of `alert_active` performed by
`_check_alert`, and the fact that the returned boolean equals the
updated `alert_active`. -/
theorem check_alert_alert_active (cfg : AlertConfig) (now : ℚ) (s : State)
    (temperature : ℚ) :
    (temperature ≥ cfg.threshold → s.alert_active = false →
      ((check_alert cfg now s temperature).2.1).alert_active = true) ∧
    (temperature < cfg.threshold - cfg.hysteresis → s.alert_active = true →
      ((check_alert cfg now s temperature).2.1).alert_active = false) ∧
    (cfg.threshold - cfg.hysteresis ≤ temperature → temperature < cfg.threshold →
      ((check_alert cfg now s temperature).2.1).alert_active = s.alert_active) ∧
    ((check_alert cfg now s temperature).1 =
      ((check_alert cfg now s temperature).2.1).alert_active) := by
  unfold check_alert
  refine ⟨?_, ?_, ?_, ?_⟩ <;>
    cases h : s.alert_active <;>
    simp only [h] <;>
    split <;>
    simp_all <;>
    split <;>
    simp_all <;>
    intros <;>
    linarith

/-- Witness for `check_alert_alert_active` at threshold 30, hysteresis 1,
reading 31 with the alarm initially inactive. -/
theorem check_alert_alert_active_witness :
    (((check_alert ⟨30, 1, 60, 5⟩ 0 initState 31).2.1).alert_active = true) ∧
    (((check_alert ⟨30, 1, 60, 5⟩ 0 { initState with alert_active := true }
        28).2.1).alert_active = false) ∧
    (((check_alert ⟨30, 1, 60, 5⟩ 0 { initState with alert_active := true }
        (59/2)).2.1).alert_active = true) :=
  ⟨(check_alert_alert_active ⟨30, 1, 60, 5⟩ 0 initState 31).1 (by norm_num) rfl,
   (check_alert_alert_active ⟨30, 1, 60, 5⟩ 0 _ 28).2.1 (by norm_num) rfl,
   ((check_alert_alert_active ⟨30, 1, 60, 5⟩ 0 _ (59/2)).2.2.1 (by norm_num)
     (by norm_num)).trans rfl⟩

/-- C2 counterexample: with `lastReading = 0.0` (a perfectly valid prior
reading), elapsed one minute and a reading of 100, the rate
`|100 - 0| / 1 = 100` far exceeds the threshold 5, yet `_check_alert`
produces no rate event: the guard
`if self._last_temp and self._last_check_time:` tests Python truthiness
and `0.0` is falsy. -/
theorem rate_event_zero_baseline_cex :
    (0 : ℚ) < ((120 : ℚ) - 60) / 60 ∧
    (5 : ℚ) < |(100 : ℚ) - 0| / (((120 : ℚ) - 60) / 60) ∧
    ((check_alert ⟨30, 1, 60, 5⟩ 120
        { initState with last_temp := some 0, last_check_time := some 60 }
        100).2.2 = []) := by
  refine ⟨by norm_num, by norm_num, ?_⟩
  rw [check_alert_calls]
  simp [truthy]

/-- C2 amended: a rate event is produced iff `lastReading` and
`lastReadingTime` are present *and nonzero* (Python truthiness), the
elapsed time is positive, and `|reading - lastReading|` divided by the
elapsed minutes exceeds `rateThreshold`; the produced events are
independent of `alarmActive`. -/
theorem check_alert_rate_event_iff (cfg : AlertConfig) (now : ℚ) (s : State)
    (t : ℚ) (b : Bool) :
    (((check_alert cfg now s t).2.2 ≠ []) ↔
      (∃ lt lct : ℚ, s.last_temp = some lt ∧ s.last_check_time = some lct ∧
        lt ≠ 0 ∧ lct ≠ 0 ∧ 0 < now - lct ∧
        cfg.rate_of_change_threshold < |t - lt| / ((now - lct) / 60))) ∧
    ((check_alert cfg now s t).2.2 =
      (check_alert cfg now { s with alert_active := b } t).2.2) := by
  constructor
  · rw [check_alert_calls]
    cases hlt : s.last_temp with
    | none => simp [truthy]
    | some lt =>
        cases hlct : s.last_check_time with
        | none => simp [truthy]
        | some lct =>
            simp only [truthy, Option.getD_some, Option.some.injEq]
            split_ifs with h1 h2 h3 <;>
              simp_all <;>
              omega
  · rw [check_alert_calls, check_alert_calls]

/-- C3 counterexample: `_check_alert` itself invokes the Notification
Sink: with a prior reading 20 one minute ago and a current reading 27,
the rate 7 exceeds the threshold 5 and `_check_alert` calls
`self.notifier.send(...)` directly. -/
theorem check_alert_invokes_sink_cex :
    (check_alert ⟨30, 1, 60, 5⟩ 120
      { initState with last_temp := some 20, last_check_time := some 60 }
      27).2.2 ≠ [] := by
  rw [check_alert_calls]
  norm_num [truthy]

/-- C3 amended: the only Sink invocations `_check_alert` performs itself
are rate-of-change notifications (at most one per call, carrying the
reading and `alert=true`); its state mutation is limited to
`_alert_active` (every other field is unchanged).  The
threshold-exceeded notification is issued by the caller, the poll
cycle. -/
theorem check_alert_effects (cfg : AlertConfig) (now : ℚ) (s : State) (t : ℚ) :
    ((check_alert cfg now s t).2.2 = [] ∨
      ∃ r : ℚ, (check_alert cfg now s t).2.2 =
        [{ message := SinkMessage.rateExceeded r, temperature := t,
           alert := true }]) ∧
    ((check_alert cfg now s t).2.1.last_temp = s.last_temp ∧
      (check_alert cfg now s t).2.1.last_check_time = s.last_check_time ∧
      (check_alert cfg now s t).2.1.current_temp = s.current_temp ∧
      (check_alert cfg now s t).2.1.history = s.history) := by
  refine ⟨?_, check_alert_frame cfg now s t⟩
  rw [check_alert_calls]
  split_ifs <;> simp

/-- C4: a poll cycle whose read fails (the Source returns absent)
appends nothing to history, resets the rate-of-change baseline
(`lastReading` becomes absent, `lastReadingTime` becomes the cycle's
time), makes no sink call, and the next successful reading's rate check
produces no rate event.  The embedding of the failed-read cycle is a
total function: no operation in that branch of `_monitor_loop` can
raise. -/
theorem pollOnce_failed_read_resets_baseline (cfg : AlertConfig) (s : State)
    (now : ℚ) :
    ((pollOnce cfg s none now).1.history = s.history) ∧
    ((pollOnce cfg s none now).1.last_temp = none) ∧
    ((pollOnce cfg s none now).1.last_check_time = some now) ∧
    ((pollOnce cfg s none now).2 = []) ∧
    (∀ t now2 : ℚ,
      ((pollOnce cfg (pollOnce cfg s none now).1 (some t) now2).2.all
        (fun c => ! is_rate_call c)) = true) := by
  refine ⟨rfl, rfl, rfl, rfl, ?_⟩
  intro t now2
  simp only [pollOnce]
  rw [List.all_append, check_alert_calls]
  simp only [truthy]
  split_ifs <;> simp_all [is_rate_call]

/-- C5 counterexample: a failed read does not clear `_current_temp`:
starting from a state where a previous successful cycle stored 25, a
cycle whose read returns absent leaves `_current_temp = 25` (the code
assigns `self._current_temp` only inside `if temperature is not None:`). -/
theorem pollOnce_failed_read_current_temp_cex :
    (pollOnce ⟨30, 1, 60, 5⟩ { initState with current_temp := some 25 }
      none 0).1.current_temp ≠ none := by
  simp [pollOnce]

/-- C5 amended: after a poll cycle whose read fails, `currentReading` is
unchanged — it keeps the value of the last successful cycle, and is
absent only if it was already absent. -/
theorem pollOnce_failed_read_current_temp (cfg : AlertConfig) (s : State)
    (now : ℚ) :
    (pollOnce cfg s none now).1.current_temp = s.current_temp := rfl

/-- C6: history never exceeds 100 entries, and eviction is FIFO: after
101 successful readings starting from an empty history, the retained
history is exactly the most recent 100 readings in order (the first
reading has been dropped). -/
theorem pollSeq_history_bounded_fifo (cfg : AlertConfig) (s : State)
    (inputs : List (ℚ × ℚ)) :
    (s.history.length ≤ 100 → (pollSeq cfg s inputs).history.length ≤ 100) ∧
    (s.history = [] → inputs.length = 101 →
      (pollSeq cfg s inputs).history = (inputs.map Prod.fst).drop 1) := by
  constructor
  · intro hh
    rw [pollSeq_history, histFold_eq_drop _ _ hh]
    simp only [List.length_drop]
    omega
  · intro hnil hlen
    rw [pollSeq_history, hnil, histFold_eq_drop _ _ (by simp)]
    simp [hlen]

/-- Witness for `pollSeq_history_bounded_fifo` on the concrete run
`inputs101` starting from the initial state. -/
theorem pollSeq_history_bounded_fifo_witness :
    ((pollSeq ⟨30, 1, 60, 5⟩ initState inputs101).history.length ≤ 100) ∧
    ((pollSeq ⟨30, 1, 60, 5⟩ initState inputs101).history =
      (inputs101.map Prod.fst).drop 1) :=
  ⟨(pollSeq_history_bounded_fifo ⟨30, 1, 60, 5⟩ initState inputs101).1
      (by simp [initState]),
   (pollSeq_history_bounded_fifo ⟨30, 1, 60, 5⟩ initState inputs101).2 rfl
      (by rw [inputs101, List.length_map, List.length_range])⟩

/-- C7: threshold notification is level-triggered: on a successful poll
cycle, the non-rate sink calls are exactly one threshold-exceeded call
(carrying the configured threshold, the reading, and `alert=true`) when
`alarmActive` is true after classification, and none when it is false. -/
theorem pollOnce_threshold_level_triggered (cfg : AlertConfig) (s : State)
    (t now : ℚ) :
    (pollOnce cfg s (some t) now).2.filter (fun c => ! is_rate_call c) =
      (if (pollOnce cfg s (some t) now).1.alert_active then
        [{ message := SinkMessage.thresholdExceeded cfg.threshold,
           temperature := t, alert := true }]
      else []) := by
  simp only [pollOnce]
  rw [List.filter_append, check_alert_filter_threshold, check_alert_fst]
  split_ifs <;> simp [is_rate_call]

/-- C8: constructing the engine fails exactly on an unknown sensor type
or an unknown notification type; every supported pair constructs
successfully, so the configuration error is settled before the poll
loop (which receives no type strings) can start. -/
theorem mkTemperatureAlert_config_error (sensor_type notification_type : String) :
    (∃ r, mkTemperatureAlert sensor_type notification_type = Except.ok r) ↔
      (sensor_type ∈ ["file", "http", "mqtt", "gpio"] ∧
        notification_type ∈ ["telegram", "discord", "webhook"]) := by
  unfold mkTemperatureAlert create_sensor create_notifier
  split_ifs <;> simp_all [Bind.bind, Except.bind]

/-- C9: the frame of a failed-read poll cycle: `alarmActive`,
`currentReading` and `history` are exactly as before; only `lastReading`
(set to absent) and `lastReadingTime` (set to the cycle's time) change,
and no sink call is made. -/
theorem pollOnce_failed_read_frame (cfg : AlertConfig) (s : State) (now : ℚ) :
    ((pollOnce cfg s none now).1.alert_active = s.alert_active) ∧
    ((pollOnce cfg s none now).1.current_temp = s.current_temp) ∧
    ((pollOnce cfg s none now).1.history = s.history) ∧
    ((pollOnce cfg s none now).1.last_temp = none) ∧
    ((pollOnce cfg s none now).1.last_check_time = some now) ∧
    ((pollOnce cfg s none now).2 = []) :=
  ⟨rfl, rfl, rfl, rfl, rfl, rfl⟩

end TemperatureAlert
